import Mathlib

/-!
Shallow embedding of `src/AnyDown.py`, a messaging bot that downloads a
video behind a user-supplied URL and sends it back, together with proofs
about the URL classifier (`is_supported_url`, lines 62-67), the supported
domain allow-list (lines 38-46) and the orchestration pipeline
(`download_and_send_video`, lines 69-141).

External effects (the Telegram transport and the yt-dlp backend) are
modelled by an oracle `Env` fixing, for one pipeline run, the outcome of
every call that can raise: the two `reply_chat_action` calls, the probe
(`extract_info`), the progress `reply_text`, the download, the directory
listing observed afterwards, the size of the chosen file, the upload call,
the message deletions and the error replies.  The pipeline function threads
these outcomes through the exact control flow of the Python source: the
`with tempfile.TemporaryDirectory()` block removes the directory on every
exit before an exception reaches the two `except` clauses, `except
yt_dlp.utils.DownloadError` handles download-classified faults and the bare
`except Exception` everything else.
-/

namespace AnyDown

/-- Characterwise lowercasing, modelling Python `str.lower()` on the
alphabet relevant to the ASCII allow-list fragments. -/
def pyLower (s : List Char) : List Char := s.map Char.toLower

/-- Boolean test that `needle` is an initial segment of `hay`. -/
def startsWithChars : List Char → List Char → Bool
  | [], _ => true
  | _ :: _, [] => false
  | a :: as, b :: bs => a == b && startsWithChars as bs

/-- Python's substring operator `needle in hay` on character lists. -/
def substrOf (needle : List Char) : List Char → Bool
  | [] => startsWithChars needle []
  | c :: rest => startsWithChars needle (c :: rest) || substrOf needle rest

/-- Allow-list of domain fragments, lines 38-46 of the source. -/
def SUPPORTED_DOMAINS : List (List Char) :=
  ["youtube.com".data, "youtu.be".data, "facebook.com".data, "fb.watch".data,
   "instagram.com".data, "twitter.com".data, "x.com".data]

/-- A Python value reaching `is_supported_url`: either a genuine string, or
a non-string value on which the attribute access inside the `try` block
raises (the bare `except` then returns `False`). -/
inductive PyValue
  | str (s : List Char)
  | nonStr
deriving DecidableEq

/-- Lines 62-67: `any(domain in url.lower() for domain in SUPPORTED_DOMAINS)`
wrapped in `try`/`except: return False`. -/
def is_supported_url : PyValue → Bool
  | .str url => SUPPORTED_DOMAINS.any (fun d => substrOf d (pyLower url))
  | .nonStr => false

/-- Metadata returned by the probe (`ydl.extract_info(url, download=False)`).
`none` models a key absent from the info dictionary, so that the
`info.get(key, default)` calls of lines 93-94 and 113 take their default. -/
structure MediaInfo where
  title : Option String
  duration : Option Nat
deriving DecidableEq

/-- Outcome of the probe call at line 89. -/
inductive ProbeResult
  | ok (info : MediaInfo)
  | downloadError
  | otherError
deriving DecidableEq

/-- Outcome of `ydl.download([url])` at line 98. -/
inductive FetchStatus
  | ok
  | downloadError
  | otherError
deriving DecidableEq

/-- The two delivery strategies selected at line 109. -/
inductive DeliveryMode
  | Streamable
  | AsDocument
deriving DecidableEq

/-- The size test of line 109: `os.path.getsize(downloaded_path) < 2000 * 1024 * 1024`. -/
def chooseDelivery (sizeBytes : Nat) : DeliveryMode :=
  if sizeBytes < 2000 * 1024 * 1024 then .Streamable else .AsDocument

/-- One upload call to the transport: `reply_video` (lines 111-117) or
`reply_document` (lines 120-123), with the parameters passed there. -/
structure UploadCall where
  asDocument : Bool
  file : String
  caption : String
  supportsStreaming : Bool
  readTimeout : Option Nat
  writeTimeout : Option Nat
deriving DecidableEq

/-- A text message sent to the requesting chat, tagged by call site. -/
inductive Reply
  | rejection
  | processing (text : String)
  | downloadFailed
  | unexpectedError
deriving DecidableEq

/-- The literal text each `reply_text` call site sends (lines 75, 92-95,
131, 135 of the source). -/
def Reply.text : Reply → String
  | .rejection => "❌ Unsupported platform. Send links from YouTube/Facebook/Instagram/Twitter only."
  | .processing t => t
  | .downloadFailed => "⚠️ Couldn't download this video. It might be private or age-restricted."
  | .unexpectedError => "❌ An unexpected error occurred. Please try again later."

/-- Lines 92-95: the f-string of the progress message, with the
`info.get('title', 'video')` and `info.get('duration', 0) // 60` defaults. -/
def processingMessageText (info : MediaInfo) : String :=
  "⏳ Downloading: " ++ info.title.getD "video" ++
    "\n⏱ Duration: " ++ toString (info.duration.getD 0 / 60) ++ " minutes"

/-- Line 101: Python `f.endswith('.mp4')`. -/
def endsWithDotMp4 (f : String) : Bool := ".mp4".data.isSuffixOf f.data

/-- Lines 109-123: the upload call actually issued for a file of the given
size, with the captions, streaming flag and timeout arguments of the two
branches. -/
def mkUploadCall (info : MediaInfo) (sizeBytes : Nat) (file : String) : UploadCall :=
  if sizeBytes < 2000 * 1024 * 1024 then
    { asDocument := false, file := file,
      caption := "✅ " ++ info.title.getD "Downloaded Video",
      supportsStreaming := true, readTimeout := some 60, writeTimeout := some 60 }
  else
    { asDocument := true, file := file,
      caption := "📁 File too large for streaming, sent as document",
      supportsStreaming := false, readTimeout := none, writeTimeout := none }

/-- Exception classification driving the two `except` clauses:
`yt_dlp.utils.DownloadError` versus every other `Exception`. -/
inductive ExcKind
  | downloadErr
  | otherErr
deriving DecidableEq

/-- Oracle fixing the outcome of every external call of one pipeline run. -/
structure Env where
  /-- `reply_chat_action(action="typing")` at line 88 succeeds. -/
  typingOk : Bool
  /-- Outcome of `ydl.extract_info` at line 89. -/
  probe : ProbeResult
  /-- The progress `reply_text` at lines 92-95 succeeds. -/
  notifyOk : Bool
  /-- Outcome of `ydl.download` at line 98. -/
  fetch : FetchStatus
  /-- `os.listdir(tmp_dir)` observed at line 101, in listing order. -/
  files : List String
  /-- `os.path.getsize(downloaded_path)` at line 109. -/
  fileSize : Nat
  /-- `reply_chat_action(action="upload_video")` at line 108 succeeds. -/
  uploadActionOk : Bool
  /-- The upload (`reply_video` or `reply_document`) succeeds. -/
  sendOk : Bool
  /-- `processing_msg.delete()` at line 126 succeeds. -/
  deleteOk : Bool
  /-- The `reply_text` at line 131 succeeds. -/
  dlErrReplyOk : Bool
  /-- The `reply_text` at line 135 succeeds. -/
  genErrReplyOk : Bool
  /-- The retried `processing_msg.delete()` at line 139 succeeds. -/
  deleteRetryOk : Bool
  /-- The rejection `reply_text` at line 75 succeeds. -/
  rejectReplyOk : Bool
deriving DecidableEq

/-- State accumulated by the `try`/`with` body, lines 80-126: messages sent
so far, progress-message bookkeeping, whether the download was attempted,
the upload call issued if any, and the exception terminating the body if
one was raised. -/
structure BodyState where
  replies : List Reply
  processingSent : Bool
  processingDeleted : Bool
  fetchAttempted : Bool
  upload : Option UploadCall
  exc : Option ExcKind
deriving DecidableEq

/-- Lines 80-126, the body of the `with tempfile.TemporaryDirectory()`
block, stopping at the first raising call. -/
def runBody (env : Env) : BodyState :=
  if env.typingOk then
    match env.probe with
    | .ok info =>
      if env.notifyOk then
        let sent : List Reply := [.processing (processingMessageText info)]
        match env.fetch with
        | .ok =>
          match env.files.filter (fun f => endsWithDotMp4 f) with
          | [] =>
            -- line 103: `raise Exception("No video file found after download")`
            ⟨sent, true, false, true, none, some .otherErr⟩
          | f :: _ =>
            if env.uploadActionOk then
              let call := mkUploadCall info env.fileSize f
              if env.sendOk then
                if env.deleteOk then ⟨sent, true, true, true, some call, none⟩
                else ⟨sent, true, false, true, some call, some .otherErr⟩
              else ⟨sent, true, false, true, some call, some .otherErr⟩
            else ⟨sent, true, false, true, none, some .otherErr⟩
        | .downloadError => ⟨sent, true, false, true, none, some .downloadErr⟩
        | .otherError => ⟨sent, true, false, true, none, some .otherErr⟩
      else ⟨[], false, false, false, none, some .otherErr⟩
    | .downloadError => ⟨[], false, false, false, none, some .downloadErr⟩
    | .otherError => ⟨[], false, false, false, none, some .otherErr⟩
  else ⟨[], false, false, false, none, some .otherErr⟩

/-- Observable outcome of one call of `download_and_send_video`. -/
structure RunResult where
  replies : List Reply
  processingMsgSent : Bool
  processingMsgDeleted : Bool
  fetchAttempted : Bool
  tmpDirCreated : Bool
  tmpDirAbsentAtEnd : Bool
  upload : Option UploadCall
  /-- An exception escaped the handler (a raising `reply_text` inside an
  `except` clause propagates out of the function). -/
  uncaught : Bool
deriving DecidableEq

/-- Lines 69-141.  The `with` block of line 80 removes the temporary
directory on every exit, before an exception reaches the `except` clauses;
the `DownloadError` clause (128-131) sends the specific message and does
not touch the progress message; the generic clause (133-141) sends the
generic message and then best-effort deletes the progress message, the
retried deletion's own failure being swallowed by the inner
`try`/`except: pass`. -/
def download_and_send_video (env : Env) (url : List Char) : RunResult :=
  if is_supported_url (.str url) then
    let b := runBody env
    match b.exc with
    | none =>
      ⟨b.replies, b.processingSent, b.processingDeleted, b.fetchAttempted,
        true, true, b.upload, false⟩
    | some .downloadErr =>
      if env.dlErrReplyOk then
        ⟨b.replies ++ [.downloadFailed], b.processingSent, b.processingDeleted,
          b.fetchAttempted, true, true, b.upload, false⟩
      else
        ⟨b.replies, b.processingSent, b.processingDeleted, b.fetchAttempted,
          true, true, b.upload, true⟩
    | some .otherErr =>
      if env.genErrReplyOk then
        if b.processingSent then
          ⟨b.replies ++ [.unexpectedError], b.processingSent,
            b.processingDeleted || env.deleteRetryOk, b.fetchAttempted,
            true, true, b.upload, false⟩
        else
          ⟨b.replies ++ [.unexpectedError], b.processingSent, b.processingDeleted,
            b.fetchAttempted, true, true, b.upload, false⟩
      else
        ⟨b.replies, b.processingSent, b.processingDeleted, b.fetchAttempted,
          true, true, b.upload, true⟩
  else
    if env.rejectReplyOk then
      ⟨[.rejection], false, false, false, false, true, none, false⟩
    else
      ⟨[], false, false, false, false, true, none, true⟩


lemma startsWithChars_iff (n h : List Char) :
    startsWithChars n h = true ↔ ∃ t, h = n ++ t := by
  induction n generalizing h with
  | nil =>
    rw [startsWithChars]
    simp
  | cons a as ih =>
    cases h with
    | nil =>
      rw [startsWithChars]
      simp
    | cons b bs =>
      rw [startsWithChars]
      rw [Bool.and_eq_true, beq_iff_eq, ih]
      constructor
      · rintro ⟨rfl, t, rfl⟩
        exact ⟨t, rfl⟩
      · rintro ⟨t, ht⟩
        rw [List.cons_append, List.cons.injEq] at ht
        exact ⟨ht.1.symm, t, ht.2⟩

lemma substrOf_iff (n h : List Char) :
    substrOf n h = true ↔ ∃ pre post, h = pre ++ n ++ post := by
  induction h with
  | nil =>
    rw [substrOf, startsWithChars_iff]
    constructor
    · rintro ⟨t, ht⟩
      rcases List.append_eq_nil.mp ht.symm with ⟨h1, h2⟩
      exact ⟨[], [], by simp [h1]⟩
    · rintro ⟨pre, post, hpp⟩
      rcases List.append_eq_nil.mp hpp.symm with ⟨h1, h2⟩
      rcases List.append_eq_nil.mp h1 with ⟨h3, h4⟩
      exact ⟨[], by simp [h4]⟩
  | cons c rest ih =>
    rw [substrOf, Bool.or_eq_true, startsWithChars_iff, ih]
    constructor
    · rintro (⟨t, ht⟩ | ⟨pre, post, hpp⟩)
      · exact ⟨[], t, by simp [ht]⟩
      · exact ⟨c :: pre, post, by simp [hpp]⟩
    · rintro ⟨pre, post, hpp⟩
      cases pre with
      | nil => exact Or.inl ⟨post, by simpa using hpp⟩
      | cons c2 pre2 =>
        rw [List.cons_append, List.cons_append, List.cons.injEq] at hpp
        exact Or.inr ⟨pre2, post, hpp.2⟩

lemma runBody_probe_dl (env : Env) (ht : env.typingOk = true)
    (hp : env.probe = .downloadError) :
    runBody env = ⟨[], false, false, false, none, some .downloadErr⟩ := by
  unfold runBody
  simp [ht, hp]

lemma runBody_notify_fail (env : Env) (info : MediaInfo) (ht : env.typingOk = true)
    (hp : env.probe = .ok info) (hn : env.notifyOk = false) :
    runBody env = ⟨[], false, false, false, none, some .otherErr⟩ := by
  unfold runBody
  simp [ht, hp, hn]

lemma runBody_fetch_dl (env : Env) (info : MediaInfo) (ht : env.typingOk = true)
    (hp : env.probe = .ok info) (hn : env.notifyOk = true)
    (hf : env.fetch = .downloadError) :
    runBody env = ⟨[.processing (processingMessageText info)], true, false, true,
      none, some .downloadErr⟩ := by
  unfold runBody
  simp [ht, hp, hn, hf]

lemma runBody_fetch_other (env : Env) (info : MediaInfo) (ht : env.typingOk = true)
    (hp : env.probe = .ok info) (hn : env.notifyOk = true)
    (hf : env.fetch = .otherError) :
    runBody env = ⟨[.processing (processingMessageText info)], true, false, true,
      none, some .otherErr⟩ := by
  unfold runBody
  simp [ht, hp, hn, hf]

lemma runBody_no_mp4 (env : Env) (info : MediaInfo) (ht : env.typingOk = true)
    (hp : env.probe = .ok info) (hn : env.notifyOk = true) (hf : env.fetch = .ok)
    (hfil : env.files.filter (fun f => endsWithDotMp4 f) = []) :
    runBody env = ⟨[.processing (processingMessageText info)], true, false, true,
      none, some .otherErr⟩ := by
  unfold runBody
  simp [ht, hp, hn, hf, hfil]

lemma runBody_upload_reached (env : Env) (info : MediaInfo) (f : String)
    (rest : List String) (ht : env.typingOk = true)
    (hp : env.probe = .ok info) (hn : env.notifyOk = true) (hf : env.fetch = .ok)
    (hfil : env.files.filter (fun f => endsWithDotMp4 f) = f :: rest)
    (hua : env.uploadActionOk = true) :
    (runBody env).upload = some (mkUploadCall info env.fileSize f) ∧
    (runBody env).replies = [.processing (processingMessageText info)] ∧
    (runBody env).processingSent = true ∧
    (runBody env).fetchAttempted = true := by
  unfold runBody
  cases hsend : env.sendOk <;> cases hdel : env.deleteOk <;>
    simp [ht, hp, hn, hf, hfil, hua, hsend, hdel]

lemma runBody_success (env : Env) (info : MediaInfo) (f : String)
    (rest : List String) (ht : env.typingOk = true)
    (hp : env.probe = .ok info) (hn : env.notifyOk = true) (hf : env.fetch = .ok)
    (hfil : env.files.filter (fun f => endsWithDotMp4 f) = f :: rest)
    (hua : env.uploadActionOk = true) (hsend : env.sendOk = true)
    (hdel : env.deleteOk = true) :
    runBody env = ⟨[.processing (processingMessageText info)], true, true, true,
      some (mkUploadCall info env.fileSize f), none⟩ := by
  unfold runBody
  simp [ht, hp, hn, hf, hfil, hua, hsend, hdel]

lemma runBody_upload_some (env : Env) (c : UploadCall)
    (h : (runBody env).upload = some c) :
    ∃ info f rest, env.probe = .ok info ∧
      env.files.filter (fun f => endsWithDotMp4 f) = f :: rest ∧
      c = mkUploadCall info env.fileSize f := by
  unfold runBody at h
  repeat' split at h
  all_goals simp_all

lemma run_exc_none (env : Env) (url : List Char)
    (hs : is_supported_url (.str url) = true) (he : (runBody env).exc = none) :
    download_and_send_video env url =
      ⟨(runBody env).replies, (runBody env).processingSent,
        (runBody env).processingDeleted, (runBody env).fetchAttempted,
        true, true, (runBody env).upload, false⟩ := by
  unfold download_and_send_video
  simp [hs, he]

lemma run_exc_dl (env : Env) (url : List Char)
    (hs : is_supported_url (.str url) = true)
    (he : (runBody env).exc = some .downloadErr) (hr : env.dlErrReplyOk = true) :
    download_and_send_video env url =
      ⟨(runBody env).replies ++ [.downloadFailed], (runBody env).processingSent,
        (runBody env).processingDeleted, (runBody env).fetchAttempted,
        true, true, (runBody env).upload, false⟩ := by
  unfold download_and_send_video
  simp [hs, he, hr]

lemma run_exc_other (env : Env) (url : List Char)
    (hs : is_supported_url (.str url) = true)
    (he : (runBody env).exc = some .otherErr) (hg : env.genErrReplyOk = true)
    (hps : (runBody env).processingSent = true) :
    download_and_send_video env url =
      ⟨(runBody env).replies ++ [.unexpectedError], true,
        (runBody env).processingDeleted || env.deleteRetryOk,
        (runBody env).fetchAttempted, true, true, (runBody env).upload, false⟩ := by
  unfold download_and_send_video
  simp [hs, he, hg, hps]

lemma run_exc_other_noMsg (env : Env) (url : List Char)
    (hs : is_supported_url (.str url) = true)
    (he : (runBody env).exc = some .otherErr) (hg : env.genErrReplyOk = true)
    (hps : (runBody env).processingSent = false) :
    download_and_send_video env url =
      ⟨(runBody env).replies ++ [.unexpectedError], false,
        (runBody env).processingDeleted, (runBody env).fetchAttempted,
        true, true, (runBody env).upload, false⟩ := by
  unfold download_and_send_video
  simp [hs, he, hg, hps]

lemma run_replies_decomp (env : Env) (url : List Char)
    (hs : is_supported_url (.str url) = true) :
    ∃ extra, (download_and_send_video env url).replies =
      (runBody env).replies ++ extra := by
  unfold download_and_send_video
  simp only [hs, if_true]
  repeat' split
  all_goals first
    | exact ⟨[], (List.append_nil _).symm⟩
    | exact ⟨[.downloadFailed], rfl⟩
    | exact ⟨[.unexpectedError], rfl⟩

lemma run_upload_to_body (env : Env) (url : List Char) (c : UploadCall)
    (h : (download_and_send_video env url).upload = some c) :
    (runBody env).upload = some c := by
  unfold download_and_send_video at h
  rcases he : (runBody env).exc with _ | k
  · simp only [he] at h
    repeat' split at h
    all_goals first
    | exact h
    | simp_all
  · cases k <;> simp only [he] at h <;> repeat' split at h
    all_goals try exact h
    all_goals (exact absurd h (by simp))


lemma runBody_delete_fail (env : Env) (info : MediaInfo) (f : String)
    (rest : List String) (ht : env.typingOk = true)
    (hp : env.probe = .ok info) (hn : env.notifyOk = true) (hf : env.fetch = .ok)
    (hfil : env.files.filter (fun g => endsWithDotMp4 g) = f :: rest)
    (hua : env.uploadActionOk = true) (hsend : env.sendOk = true)
    (hdel : env.deleteOk = false) :
    runBody env = ⟨[.processing (processingMessageText info)], true, false, true,
      some (mkUploadCall info env.fileSize f), some .otherErr⟩ := by
  unfold runBody
  simp [ht, hp, hn, hf, hfil, hua, hsend, hdel]

lemma runBody_replies_after_notify (env : Env) (info : MediaInfo)
    (ht : env.typingOk = true) (hp : env.probe = .ok info)
    (hn : env.notifyOk = true) :
    (runBody env).replies = [.processing (processingMessageText info)] := by
  unfold runBody
  cases hf : env.fetch <;>
    cases hua : env.uploadActionOk <;>
    cases hsend : env.sendOk <;>
    cases hdel : env.deleteOk <;>
    rcases hfil : env.files.filter (fun g => endsWithDotMp4 g) with _ | ⟨f, rest⟩ <;>
    simp [ht, hp, hn, hf, hua, hsend, hdel, hfil]

lemma run_upload_eq_body (env : Env) (url : List Char)
    (hs : is_supported_url (.str url) = true) :
    (download_and_send_video env url).upload = (runBody env).upload := by
  unfold download_and_send_video
  rcases he : (runBody env).exc with _ | k
  · simp [hs, he]
  · cases k
    · simp only [hs, he]
      repeat' split
      all_goals first | rfl | simp_all
    · simp only [hs, he]
      repeat' split
      all_goals first | rfl | simp_all

def url0 : List Char := "https://youtu.be/abc123".data

def info0 : MediaInfo := { title := some "Sample", duration := some 125 }

def envOk : Env :=
  { typingOk := true, probe := .ok info0, notifyOk := true, fetch := .ok,
    files := ["Sample.mp4"], fileSize := 50 * 1024 * 1024, uploadActionOk := true,
    sendOk := true, deleteOk := true, dlErrReplyOk := true, genErrReplyOk := true,
    deleteRetryOk := true, rejectReplyOk := true }

def c1Call : UploadCall :=
  { asDocument := false, file := "Sample.mp4", caption := "✅ Sample",
    supportsStreaming := true, readTimeout := some 60, writeTimeout := some 60 }

/-- C1: a downloaded file whose size is strictly below 2000*1024*1024
bytes is delivered in Streamable mode, sent as a video with streaming
enabled and caption "✅ {title}"; a file whose size is at or above the
threshold (the boundary included) is delivered in AsDocument mode, sent as
a document with the fixed too-large caption. -/
theorem C1_size_threshold_delivery (env : Env) (url : List Char)
    (info : MediaInfo) (c : UploadCall) (hp : env.probe = .ok info)
    (hc : (download_and_send_video env url).upload = some c) :
    (env.fileSize < 2000 * 1024 * 1024 →
      chooseDelivery env.fileSize = .Streamable ∧ c.asDocument = false ∧
      c.supportsStreaming = true ∧
      c.caption = "✅ " ++ info.title.getD "Downloaded Video") ∧
    (2000 * 1024 * 1024 ≤ env.fileSize →
      chooseDelivery env.fileSize = .AsDocument ∧ c.asDocument = true ∧
      c.caption = "📁 File too large for streaming, sent as document") := by
  obtain ⟨info2, f, rest, hp2, hfil, hcall⟩ :=
    runBody_upload_some env c (run_upload_to_body env url c hc)
  rw [hp] at hp2
  injection hp2 with h2
  subst h2
  subst hcall
  constructor
  · intro hlt
    rw [chooseDelivery, if_pos hlt, mkUploadCall, if_pos hlt]
    exact ⟨rfl, rfl, rfl, rfl⟩
  · intro hge
    have hnlt : ¬ (env.fileSize < 2000 * 1024 * 1024) := not_lt.mpr hge
    rw [chooseDelivery, if_neg hnlt, mkUploadCall, if_neg hnlt]
    exact ⟨rfl, rfl, rfl⟩

/-- C1 witness: the 50 MiB run of the concrete environment is delivered
streamable with the "✅ Sample" caption. -/
theorem C1_witness :
    chooseDelivery envOk.fileSize = .Streamable ∧ c1Call.asDocument = false ∧
    c1Call.supportsStreaming = true ∧
    c1Call.caption = "✅ " ++ info0.title.getD "Downloaded Video" :=
  (C1_size_threshold_delivery envOk url0 info0 c1Call rfl (by decide)).1 (by decide)

/-- C2: on a string, is_supported_url answers true exactly when the
lowercased input contains one of the allow-list fragments as a contiguous
substring; on a non-string (exception-provoking) value it answers false
instead of raising. -/
theorem C2_is_supported_url_spec :
    (∀ s : List Char, is_supported_url (.str s) = true ↔
      ∃ d ∈ SUPPORTED_DOMAINS, ∃ pre post, pyLower s = pre ++ d ++ post) ∧
    is_supported_url .nonStr = false := by
  constructor
  · intro s
    simp only [is_supported_url, List.any_eq_true]
    constructor
    · rintro ⟨d, hd, hsub⟩
      exact ⟨d, hd, (substrOf_iff d (pyLower s)).mp hsub⟩
    · rintro ⟨d, hd, pre, post, hsplit⟩
      exact ⟨d, hd, (substrOf_iff d (pyLower s)).mpr ⟨pre, post, hsplit⟩⟩
  · rfl

/-- C2 witness: an upper-case youtu.be link is supported. -/
theorem C2_witness : is_supported_url (.str "HTTPS://YOUTU.BE/abc".data) = true :=
  (C2_is_supported_url_spec.1 _).mpr
    ⟨"youtu.be".data, by decide, "https://".data, "/abc".data, by decide⟩

/-- C3: whenever a run created the temporary directory, the directory is
absent again when the run terminates, whichever step failed. -/
theorem C3_tmpdir_removed_on_all_paths (env : Env) (url : List Char)
    (h : (download_and_send_video env url).tmpDirCreated = true) :
    (download_and_send_video env url).tmpDirAbsentAtEnd = true := by
  unfold download_and_send_video
  rcases he : (runBody env).exc with _ | k
  · simp only [he]
    repeat' split
    all_goals rfl
  · cases k
    · simp only [he]
      repeat' split
      all_goals rfl
    · simp only [he]
      repeat' split
      all_goals rfl

/-- C3 witness: the happy-path run creates the directory and it is gone at
the end. -/
theorem C3_witness :
    (download_and_send_video envOk url0).tmpDirCreated = true ∧
    (download_and_send_video envOk url0).tmpDirAbsentAtEnd = true :=
  ⟨by decide, C3_tmpdir_removed_on_all_paths envOk url0 (by decide)⟩

def envC4 : Env := { envOk with probe := .downloadError }

/-- C4 counterexample: on a supported URL whose probe raises
DownloadError, the temporary directory has been created (the with-block
opens before the probe), contrary to the claim that it is never created in
that scenario; the message is sent and no download is attempted. -/
theorem C4_counterexample :
    (download_and_send_video envC4 url0).tmpDirCreated = true ∧
    Reply.downloadFailed ∈ (download_and_send_video envC4 url0).replies ∧
    (download_and_send_video envC4 url0).fetchAttempted = false := by decide

/-- C4 amended: when the probe raises DownloadError the user receives the
private/age-restricted message and no download is attempted, but the
request-scoped temporary directory has already been created at pipeline
entry, before the probe; cleanup removes it again. -/
theorem C4_probe_failure_behavior (env : Env) (url : List Char)
    (hs : is_supported_url (.str url) = true) (ht : env.typingOk = true)
    (hp : env.probe = .downloadError) (hr : env.dlErrReplyOk = true) :
    (download_and_send_video env url).replies = [.downloadFailed] ∧
    Reply.text .downloadFailed =
      "⚠️ Couldn't download this video. It might be private or age-restricted." ∧
    (download_and_send_video env url).fetchAttempted = false ∧
    (download_and_send_video env url).upload = none ∧
    (download_and_send_video env url).tmpDirCreated = true ∧
    (download_and_send_video env url).tmpDirAbsentAtEnd = true := by
  have hb := runBody_probe_dl env ht hp
  rw [run_exc_dl env url hs (by rw [hb]) hr, hb]
  simp [Reply.text]

/-- C4 witness: the concrete probe-failure run attempts no download and
ends with the directory absent. -/
theorem C4_witness :
    (download_and_send_video envC4 url0).fetchAttempted = false ∧
    (download_and_send_video envC4 url0).tmpDirAbsentAtEnd = true :=
  ⟨(C4_probe_failure_behavior envC4 url0 (by decide) rfl rfl rfl).2.2.1,
   (C4_probe_failure_behavior envC4 url0 (by decide) rfl rfl rfl).2.2.2.2.2⟩

def envC5 : Env := { envOk with notifyOk := false }

/-- C5 counterexample: with a successful probe but a failing progress
notification, the run does not continue to fetch and delivery: no download
is attempted, no upload happens, and the generic unexpected-error message
is sent instead. -/
theorem C5_counterexample :
    (download_and_send_video envC5 url0).fetchAttempted = false ∧
    (download_and_send_video envC5 url0).upload = none ∧
    (download_and_send_video envC5 url0).replies = [.unexpectedError] := by decide

/-- C5 amended: a failure to send the progress notification is fatal: the
bare except-Exception clause ends the run with the generic
unexpected-error message, no download or upload is attempted, and cleanup
still removes the temporary directory. -/
theorem C5_notify_failure_fatal (env : Env) (url : List Char) (info : MediaInfo)
    (hs : is_supported_url (.str url) = true) (ht : env.typingOk = true)
    (hp : env.probe = .ok info) (hn : env.notifyOk = false)
    (hg : env.genErrReplyOk = true) :
    (download_and_send_video env url).fetchAttempted = false ∧
    (download_and_send_video env url).upload = none ∧
    (download_and_send_video env url).replies = [.unexpectedError] ∧
    (download_and_send_video env url).tmpDirAbsentAtEnd = true := by
  have hb := runBody_notify_fail env info ht hp hn
  rw [run_exc_other_noMsg env url hs (by rw [hb]) hg (by rw [hb]), hb]
  simp

/-- C5 witness: the concrete notification-failure run. -/
theorem C5_witness :
    (download_and_send_video envC5 url0).fetchAttempted = false ∧
    (download_and_send_video envC5 url0).upload = none :=
  ⟨(C5_notify_failure_fatal envC5 url0 info0 (by decide) rfl rfl rfl rfl).1,
   (C5_notify_failure_fatal envC5 url0 info0 (by decide) rfl rfl rfl rfl).2.1⟩

def envC6 : Env := { envOk with fetch := .downloadError }

/-- C6 counterexample: on the DownloadError terminal path the progress
message exists but is never deleted, contrary to the claim that every
terminal path deletes it. -/
theorem C6_counterexample :
    (download_and_send_video envC6 url0).processingMsgSent = true ∧
    (download_and_send_video envC6 url0).processingMsgDeleted = false := by decide

/-- C6 amended: the deletion of the progress message is best-effort (its
failure swallowed) only inside the generic except-Exception clause; on the
DownloadError terminal path the progress message is never deleted, and on
the success path a deletion failure is not swallowed but surfaces as the
generic unexpected-error message. -/
theorem C6_notification_delete_paths :
    (∀ env url info, is_supported_url (.str url) = true → env.typingOk = true →
      env.probe = .ok info → env.notifyOk = true → env.fetch = .otherError →
      env.genErrReplyOk = true →
      (download_and_send_video env url).uncaught = false ∧
      (download_and_send_video env url).processingMsgDeleted = env.deleteRetryOk) ∧
    (∀ env url info, is_supported_url (.str url) = true → env.typingOk = true →
      env.probe = .ok info → env.notifyOk = true → env.fetch = .downloadError →
      env.dlErrReplyOk = true →
      (download_and_send_video env url).processingMsgSent = true ∧
      (download_and_send_video env url).processingMsgDeleted = false) ∧
    (∀ env url info f rest, is_supported_url (.str url) = true →
      env.typingOk = true → env.probe = .ok info → env.notifyOk = true →
      env.fetch = .ok →
      env.files.filter (fun g => endsWithDotMp4 g) = f :: rest →
      env.uploadActionOk = true → env.sendOk = true → env.deleteOk = false →
      env.genErrReplyOk = true →
      Reply.unexpectedError ∈ (download_and_send_video env url).replies) := by
  refine ⟨?_, ?_, ?_⟩
  · intro env url info hs ht hp hn hf hg
    have hb := runBody_fetch_other env info ht hp hn hf
    rw [run_exc_other env url hs (by rw [hb]) hg (by rw [hb]), hb]
    simp
  · intro env url info hs ht hp hn hf hr
    have hb := runBody_fetch_dl env info ht hp hn hf
    rw [run_exc_dl env url hs (by rw [hb]) hr, hb]
    simp
  · intro env url info f rest hs ht hp hn hf hfil hua hsend hdel hg
    have hb := runBody_delete_fail env info f rest ht hp hn hf hfil hua hsend hdel
    rw [run_exc_other env url hs (by rw [hb]) hg (by rw [hb]), hb]
    simp

def envC6b : Env := { envOk with fetch := .otherError, deleteRetryOk := false }

/-- C6 witness: a concrete generic-failure run where the retried deletion
itself fails: the failure is swallowed, no exception escapes. -/
theorem C6_witness :
    (download_and_send_video envC6b url0).uncaught = false ∧
    (download_and_send_video envC6b url0).processingMsgDeleted = envC6b.deleteRetryOk :=
  C6_notification_delete_paths.1 envC6b url0 info0 (by decide) rfl rfl rfl rfl rfl

/-- C7: when the download completed but no file with the ".mp4" extension
exists in the temporary directory, the run fails with the single generic
try-again-later message, the extraction-specific message is not sent, no
upload happens, and cleanup still removes the directory. -/
theorem C7_no_output_file_generic (env : Env) (url : List Char) (info : MediaInfo)
    (hs : is_supported_url (.str url) = true) (ht : env.typingOk = true)
    (hp : env.probe = .ok info) (hn : env.notifyOk = true)
    (hf : env.fetch = .ok)
    (hfil : env.files.filter (fun g => endsWithDotMp4 g) = [])
    (hg : env.genErrReplyOk = true) :
    (download_and_send_video env url).replies =
      [.processing (processingMessageText info), .unexpectedError] ∧
    Reply.downloadFailed ∉ (download_and_send_video env url).replies ∧
    (download_and_send_video env url).upload = none ∧
    (download_and_send_video env url).tmpDirCreated = true ∧
    (download_and_send_video env url).tmpDirAbsentAtEnd = true := by
  have hb := runBody_no_mp4 env info ht hp hn hf hfil
  rw [run_exc_other env url hs (by rw [hb]) hg (by rw [hb]), hb]
  simp

def envC7 : Env := { envOk with files := ["Sample.webm"] }

/-- C7 witness: a run whose directory holds only a .webm file takes the
generic failure path and still ends with the directory absent. -/
theorem C7_witness :
    (download_and_send_video envC7 url0).upload = none ∧
    (download_and_send_video envC7 url0).tmpDirAbsentAtEnd = true :=
  ⟨(C7_no_output_file_generic envC7 url0 info0 (by decide) rfl rfl rfl rfl
      (by decide) rfl).2.2.1,
   (C7_no_output_file_generic envC7 url0 info0 (by decide) rfl rfl rfl rfl
      (by decide) rfl).2.2.2.2⟩

def envC8 : Env := { envOk with fileSize := 2000 * 1024 * 1024 }

/-- C8 counterexample: a file of exactly 2000*1024*1024 bytes is sent with
reply_document, whose call carries no read or write timeout at all,
contrary to the claim that every upload call carries explicit bounded
timeouts regardless of delivery mode. -/
theorem C8_counterexample :
    (download_and_send_video envC8 url0).upload =
      some { asDocument := true, file := "Sample.mp4",
             caption := "📁 File too large for streaming, sent as document",
             supportsStreaming := false, readTimeout := none,
             writeTimeout := none } := by decide

/-- C8 amended: only the streamable video upload carries the explicit
60-second read and write timeout budgets; the document upload passes no
explicit timeouts. -/
theorem C8_timeouts_by_mode (env : Env) (url : List Char) (c : UploadCall)
    (hc : (download_and_send_video env url).upload = some c) :
    (c.asDocument = false → c.readTimeout = some 60 ∧ c.writeTimeout = some 60) ∧
    (c.asDocument = true → c.readTimeout = none ∧ c.writeTimeout = none) := by
  obtain ⟨info, f, rest, hp, hfil, hcall⟩ :=
    runBody_upload_some env c (run_upload_to_body env url c hc)
  subst hcall
  unfold mkUploadCall
  split <;> simp

/-- C8 witness: the streamable upload of the concrete run carries the two
60-second budgets. -/
theorem C8_witness :
    c1Call.readTimeout = some 60 ∧ c1Call.writeTimeout = some 60 :=
  (C8_timeouts_by_mode envOk url0 c1Call (by decide)).1 rfl

/-- C9: whenever the directory listing contains at least one file ending
in ".mp4", exactly the first such file in listing order is the one
uploaded; when files exist but none ends in ".mp4", no upload happens and
the run takes the generic no-output-file failure path. -/
theorem C9_first_mp4_selected :
    (∀ env url info f rest, is_supported_url (.str url) = true →
      env.typingOk = true → env.probe = .ok info → env.notifyOk = true →
      env.fetch = .ok →
      env.files.filter (fun g => endsWithDotMp4 g) = f :: rest →
      env.uploadActionOk = true →
      (download_and_send_video env url).upload =
        some (mkUploadCall info env.fileSize f)) ∧
    (∀ env url info, is_supported_url (.str url) = true →
      env.typingOk = true → env.probe = .ok info → env.notifyOk = true →
      env.fetch = .ok → env.files ≠ [] →
      env.files.filter (fun g => endsWithDotMp4 g) = [] →
      env.genErrReplyOk = true →
      (download_and_send_video env url).upload = none ∧
      Reply.unexpectedError ∈ (download_and_send_video env url).replies) := by
  constructor
  · intro env url info f rest hs ht hp hn hf hfil hua
    rw [run_upload_eq_body env url hs]
    exact (runBody_upload_reached env info f rest ht hp hn hf hfil hua).1
  · intro env url info hs ht hp hn hf hne hfil hg
    have hb := runBody_no_mp4 env info ht hp hn hf hfil
    rw [run_exc_other env url hs (by rw [hb]) hg (by rw [hb]), hb]
    simp

/-- C9 witness: the concrete run uploads the single listed .mp4 file. -/
theorem C9_witness :
    (download_and_send_video envOk url0).upload =
      some (mkUploadCall info0 envOk.fileSize "Sample.mp4") :=
  C9_first_mp4_selected.1 envOk url0 info0 "Sample.mp4" [] (by decide) rfl rfl
    rfl rfl (by decide) rfl

def infoNone : MediaInfo := { title := none, duration := none }

/-- C10: when the probe metadata lacks title or duration the pipeline
substitutes fixed defaults: the progress notification reads
"⏳ Downloading: video" with "0 minutes", and the streamable caption falls
back to "✅ Downloaded Video". -/
theorem C10_metadata_defaults :
    processingMessageText infoNone =
      "⏳ Downloading: video\n⏱ Duration: 0 minutes" ∧
    (∀ env url, is_supported_url (.str url) = true → env.typingOk = true →
      env.probe = .ok infoNone → env.notifyOk = true →
      Reply.processing "⏳ Downloading: video\n⏱ Duration: 0 minutes" ∈
        (download_and_send_video env url).replies) ∧
    (∀ env url f rest, is_supported_url (.str url) = true →
      env.typingOk = true → env.probe = .ok infoNone → env.notifyOk = true →
      env.fetch = .ok →
      env.files.filter (fun g => endsWithDotMp4 g) = f :: rest →
      env.uploadActionOk = true → env.fileSize < 2000 * 1024 * 1024 →
      (download_and_send_video env url).upload =
        some (mkUploadCall infoNone env.fileSize f) ∧
      (mkUploadCall infoNone env.fileSize f).caption = "✅ Downloaded Video") := by
  refine ⟨by decide, ?_, ?_⟩
  · intro env url hs ht hp hn
    obtain ⟨extra, hdecomp⟩ := run_replies_decomp env url hs
    rw [hdecomp, runBody_replies_after_notify env infoNone ht hp hn]
    have htext : processingMessageText infoNone =
        "⏳ Downloading: video\n⏱ Duration: 0 minutes" := by decide
    rw [htext]
    simp
  · intro env url f rest hs ht hp hn hf hfil hua hsize
    constructor
    · rw [run_upload_eq_body env url hs]
      exact (runBody_upload_reached env infoNone f rest ht hp hn hf hfil hua).1
    · rw [mkUploadCall, if_pos hsize]
      show "✅ " ++ (infoNone.title.getD "Downloaded Video") = "✅ Downloaded Video"
      decide

def envC10 : Env := { envOk with probe := .ok infoNone }

/-- C10 witness: a run probing empty metadata sends the default progress
text. -/
theorem C10_witness :
    Reply.processing "⏳ Downloading: video\n⏱ Duration: 0 minutes" ∈
      (download_and_send_video envC10 url0).replies :=
  C10_metadata_defaults.2.1 envC10 url0 (by decide) rfl rfl rfl

end AnyDown
